import Mathlib

/-!
Shallow embedding of the ICDARVQA repository (src/main.py and src/model.py).

The repository is a PyTorch VQA training pipeline.  The embedding below
models, in Lean:

* the positional-argument binding discipline of Python calls (to settle the
  arity mismatches between `main.py` call sites and the `model.py`
  signatures);
* the device-selection and model-wrapping logic of `main` (lines 163-186);
* the order in which `VqaEncoder.forward` and the training loop apply the
  pipeline stages;
* the numerical content of `ImageEncoder.forward`, `TopDownAttention.forward`,
  `GatedTanh.forward` and `AnswerDecoder.forward`, over `ℚ`, with the
  framework-supplied scalar functions (tanh, sigmoid, exp), the dropout mask
  and the GRU cell taken as parameters (they are external framework code);
* the constructor of `QuestionEncoder` / `AnswerEncoder` (pretrained GloVe
  weights copied over the random initialization);
* the decoder loops of `train` and `evaluate` (teacher forcing, greedy argmax
  recording, cross-entropy with `ignore_index`, loss accumulation), with the
  decoder call abstracted as a state-transforming function;
* the epoch loop of `main` (train / evaluate / save_ckpt trace).
-/

open Finset BigOperators

/-! ### Python positional-call model

Every parameter of the `model.py` constructors and `forward` methods is a
plain positional parameter without a default, so a call binds successfully
iff the number of supplied arguments equals the number of declared
parameters; otherwise Python raises `TypeError`. -/

/-- A Python callable, identified by its positional parameter list
(excluding `self`). -/
structure PyCallable where
  params : List String
  deriving DecidableEq

/-- Positional binding succeeds iff the argument count matches the declared
parameter count (no defaults, no varargs anywhere in `model.py`). -/
def pyBindsOk (f : PyCallable) (nargs : Nat) : Bool :=
  nargs == f.params.length

/-- The Python exceptions this development needs to distinguish. -/
inductive PyError
  | typeError
  | runtimeError
  deriving DecidableEq

/-- Calling a Python callable with `nargs` positional arguments: the call
raises `TypeError` unless the arguments bind. -/
def pyCall {α : Type} (f : PyCallable) (nargs : Nat) (result : α) : Except PyError α :=
  if pyBindsOk f nargs then Except.ok result else Except.error PyError.typeError

/-- `VqaEncoder.__init__(self, vocab_size, word_embed_dim, hidden_size,
resnet_out, num_ans)` (model.py line 210). -/
def VqaEncoder.initParams : PyCallable :=
  ⟨["vocab_size", "word_embed_dim", "hidden_size", "resnet_out", "num_ans"]⟩

/-- `AnswerDecoder.__init__(self, hidden_size)` (model.py line 180). -/
def AnswerDecoder.initParams : PyCallable :=
  ⟨["hidden_size"]⟩

/-- `VqaEncoder.forward(self, images, questions, mca, q_lens)`
(model.py line 229). -/
def VqaEncoder.forwardParams : PyCallable :=
  ⟨["images", "questions", "mca", "q_lens"]⟩

/-- `AnswerDecoder.forward(self, input_step, last_hidden, mca_embed)`
(model.py line 188). -/
def AnswerDecoder.forwardParams : PyCallable :=
  ⟨["input_step", "last_hidden", "mca_embed"]⟩

/-- Argument count of the call
`VqaEncoder(vocab_size, args.word_embed_dim, args.hidden_size, args.resnet_out)`
in `main` (main.py line 180). -/
def mainVqaEncoderCallNargs : Nat := 4

/-- Argument count of the call
`AnswerDecoder(num_answers, args.word_embed_dim, args.hidden_size)` in `main`
(main.py line 181). -/
def mainAnswerDecoderCallNargs : Nat := 3

/-- Argument count of `model[0](v, q, q_lens)` in `train` (main.py line 101). -/
def trainEncoderForwardNargs : Nat := 3

/-- Argument count of `model[1](decoder_input, decoder_hidden)` in `train`
(main.py lines 111-112). -/
def trainDecoderForwardNargs : Nat := 2

/-- Argument count of `model[0](v, q, q_lens)` in `evaluate`
(main.py line 38). -/
def evaluateEncoderForwardNargs : Nat := 3

/-- Argument count of `model[1](decoder_input, decoder_hidden)` in `evaluate`
(main.py lines 48-49). -/
def evaluateDecoderForwardNargs : Nat := 2

/-- The model-construction sequence of `main` (main.py lines 180-181):
first `VqaEncoder(...)` with 4 arguments, then `AnswerDecoder(...)` with 3
arguments.  An arity mismatch on either call aborts `main` with a
`TypeError`. -/
def mainModelSetup : Except PyError (Unit × Unit) := do
  let enc ← pyCall VqaEncoder.initParams mainVqaEncoderCallNargs ()
  let dec ← pyCall AnswerDecoder.initParams mainAnswerDecoderCallNargs ()
  return (enc, dec)

/-- The per-batch forward sequence of `train` (main.py lines 101, 111-112):
the encoder forward with 3 arguments, then the decoder forward with 2. -/
def trainBatchForward : Except PyError Unit := do
  let _ ← pyCall VqaEncoder.forwardParams trainEncoderForwardNargs ()
  let _ ← pyCall AnswerDecoder.forwardParams trainDecoderForwardNargs ()
  return ()

/-- The per-batch forward sequence of `evaluate` (main.py lines 38, 48-49). -/
def evaluateBatchForward : Except PyError Unit := do
  let _ ← pyCall VqaEncoder.forwardParams evaluateEncoderForwardNargs ()
  let _ ← pyCall AnswerDecoder.forwardParams evaluateDecoderForwardNargs ()
  return ()

/-! ### Device selection and model wrapping (main.py lines 163-186) -/

/-- A torch device. -/
inductive Device
  | cpu
  | cuda
  deriving DecidableEq

/-- The CUDA environment `main` queries: `torch.cuda.is_available()` and
`torch.cuda.device_count()`. -/
structure CudaEnv where
  available : Bool
  deviceCount : Nat
  deriving DecidableEq

/-- The part of `args` that the device-selection block updates. -/
structure DeviceConfig where
  device : Device
  batchSize : Nat
  deriving DecidableEq

/-- The device-selection block of `main` (main.py lines 163-173): with
`args.cpu` it selects the cpu device; otherwise it raises `RuntimeError`
when CUDA is unavailable, and else multiplies `args.batch_size` by the
number of CUDA devices and selects the cuda device. -/
def deviceSetup (cpuFlag : Bool) (env : CudaEnv) (batchSize : Nat) :
    Except PyError DeviceConfig :=
  if cpuFlag then Except.ok ⟨Device.cpu, batchSize⟩
  else if env.available then Except.ok ⟨Device.cuda, batchSize * env.deviceCount⟩
  else Except.error PyError.runtimeError

/-- A model module as `main` manipulates it: the two base modules and the
wrappers `nn.DataParallel(...)` and `.to(device)`. -/
inductive PyModule
  | vqaEncM
  | ansDecM
  | dataParallel (m : PyModule)
  | toDevice (m : PyModule) (d : Device)
  deriving DecidableEq

/-- The wrapping loop of `main` (main.py lines 185-186):
`model[idx] = nn.DataParallel(module).to(device)` for each module. -/
def wrapModules (dev : Device) (model : List PyModule) : List PyModule :=
  model.map (fun m => PyModule.toDevice (PyModule.dataParallel m) dev)

/-! ### Pipeline stage order (model.py lines 100-108 and 229-237,
main.py lines 101-127)

`vqaEncoderStageTrace` lists, in execution order, the points at which each
pipeline stage produces its output during `VqaEncoder.forward`:
`self.ques_encoder(...)` (line 231), then `self.img_encoder(...)`
(line 232) - whose body first applies `self.attention(...)`
(model.py line 104) and then forms the attended image encoding -, then
`self.joint_embed(...)` (line 233), then `self.ans_enc(...)` (line 235).
The training loop applies the decoder after the encoder forward
(main.py lines 101, 111-112). -/

/-- The pipeline stages named by the spec: the encoder modules
(question / image / answer encoders), the attention network, the joint
embedding and the answer decoder. -/
inductive Stage
  | quesEncS
  | attentionS
  | imgEncS
  | jointEmbedS
  | ansEncS
  | decoderS
  deriving DecidableEq

/-- Stage outputs produced while `TopDownAttention.forward` runs. -/
def topDownAttentionStageTrace : List Stage := [Stage.attentionS]

/-- Stage outputs produced while `ImageEncoder.forward` runs
(model.py lines 100-108): the attention probabilities first, then the
attended image encoding. -/
def imageEncoderStageTrace : List Stage :=
  topDownAttentionStageTrace ++ [Stage.imgEncS]

/-- Stage outputs produced while `VqaEncoder.forward` runs
(model.py lines 229-237). -/
def vqaEncoderStageTrace : List Stage :=
  [Stage.quesEncS] ++ imageEncoderStageTrace ++ [Stage.jointEmbedS] ++ [Stage.ansEncS]

/-- The full forward pipeline of one training batch: the encoder forward,
then the decoder steps (main.py lines 101, 111-112). -/
def trainPipelineStageTrace : List Stage :=
  vqaEncoderStageTrace ++ [Stage.decoderS]

/-- `s1` is applied strictly before `s2` in the trace `tr`. -/
def stageBefore (tr : List Stage) (s1 s2 : Stage) : Bool :=
  tr.indexOf s1 < tr.indexOf s2

/-- `respectsOrder claimed actual` holds when every pair of stages listed in
`claimed` occurs in the same relative order in the trace `actual`. -/
def respectsOrder : List Stage → List Stage → Bool
  | [], _ => true
  | s :: rest, actual => (rest.all fun s2 => stageBefore actual s s2) && respectsOrder rest actual

/-- The stage order asserted by the spec sentence "encoder modules → joint
embedding → attention → decoder": all encoder modules first, then the joint
embedding, then the attention, then the decoder. -/
def specClaimedStageOrder : List Stage :=
  [Stage.quesEncS, Stage.imgEncS, Stage.ansEncS, Stage.jointEmbedS, Stage.attentionS, Stage.decoderS]

/-- The stage order the source actually implements: question encoder, then
attention (inside the image encoder), then the image encoding, then the
joint embedding, then the answer encoder, then the decoder. -/
def actualStageOrder : List Stage :=
  [Stage.quesEncS, Stage.attentionS, Stage.imgEncS, Stage.jointEmbedS, Stage.ansEncS, Stage.decoderS]

/-! ### Pretrained-embedding construction (model.py lines 23-36 and 54-66) -/

/-- `'glove_pretrained_SLOT.npy'.format(kind)`: the file name computed in
`QuestionEncoder.__init__` / `AnswerEncoder.__init__` (model.py lines 30
and 61), where SLOT stands for the empty replacement field of the Python
format string. -/
def gloveFileName (kind : String) : String :=
  "glove_pretrained_" ++ kind ++ ".npy"

/-- `os.path.join(dir, file)` for the relative paths used here. -/
def osPathJoin (dir file : String) : String :=
  dir ++ "/" ++ file

/-- `np.zeros((V, E), dtype=np.float32)`. -/
def npZeros (V E : Nat) : Fin V → Fin E → ℚ :=
  fun _ _ => 0

/-- Numpy row-slice assignment `dst[lo:hi] = src`. -/
def sliceAssignRows {V E : Nat} (dst src : Fin V → Fin E → ℚ) (lo hi : Nat) :
    Fin V → Fin E → ℚ :=
  fun v e => if lo ≤ (v : ℕ) ∧ (v : ℕ) < hi then src v e else dst v e

/-- The embedding weight of `QuestionEncoder` after `__init__` runs
(model.py lines 28-31): `nn.Embedding` first gives the random weight
`randomInit`; then `pretrained_wemb = np.zeros((vocab_size, embed_dim))`,
`pretrained_wemb[0:vocab_size] = np.load(os.path.join('data',
'glove_pretrained_question.npy'))`, and
`self.embeddings.weight.data.copy_(...)` overwrites the random weight with
`pretrained_wemb`.  `load path v e` is the entry at row `v`, column `e` of
the array stored at `path`. -/
def QuestionEncoder.initEmbeddingWeight (V E : Nat) (load : String → Nat → Nat → ℚ)
    (randomInit : Fin V → Fin E → ℚ) : Fin V → Fin E → ℚ :=
  let loaded : Fin V → Fin E → ℚ :=
    fun v e => load (osPathJoin "data" (gloveFileName "question")) (v : ℕ) (e : ℕ)
  let pretrained_wemb := sliceAssignRows (npZeros V E) loaded 0 V
  let _ := randomInit
  pretrained_wemb

/-- The embedding weight of `AnswerEncoder` after `__init__` runs
(model.py lines 59-62); identical to `QuestionEncoder` except for the
file name. -/
def AnswerEncoder.initEmbeddingWeight (V E : Nat) (load : String → Nat → Nat → ℚ)
    (randomInit : Fin V → Fin E → ℚ) : Fin V → Fin E → ℚ :=
  let loaded : Fin V → Fin E → ℚ :=
    fun v e => load (osPathJoin "data" (gloveFileName "answer")) (v : ℕ) (e : ℕ)
  let pretrained_wemb := sliceAssignRows (npZeros V E) loaded 0 V
  let _ := randomInit
  pretrained_wemb

/-! ### The epoch loop of `main` (main.py lines 212-215)

`for epoch in range(last_epoch, args.epoch):`
`    moving_loss = train(train_loader, model, optims, epoch, ...)`
`    score = evaluate(val_loader, model, epoch, ...)`
`    bscore = save_ckpt(score, bscore, epoch, model, optims, args.save, logger)`

The loop is modelled as a trace of events.  `train` is abstracted as a
function from the epoch and the incoming moving loss to the returned moving
loss, `evaluate` as a function from the epoch to the returned score (the
hidden model state at the start of epoch `e` is a function of `e`), and
`save_ckpt` as a function from the score, the incoming best score and the
epoch to the returned best score. -/

/-- One observable event of the epoch loop, recording the arguments that
matter for the claim: `ckptEv e score best` is the call
`save_ckpt(score, best, e, ...)`. -/
inductive MainEvent
  | trainEv (epoch : Nat)
  | evalEv (epoch : Nat)
  | ckptEv (epoch : Nat) (score : ℚ) (best : ℚ)
  deriving DecidableEq

/-- The epoch loop, running `n` remaining iterations starting at `epoch`,
threading the moving loss and the best score exactly as main.py
lines 212-215 do. -/
def mainTrainLoopAux (trainFn : Nat → ℚ → ℚ) (evalFn : Nat → ℚ)
    (saveCkpt : ℚ → ℚ → Nat → ℚ) : Nat → Nat → ℚ → ℚ → List MainEvent
  | 0, _, _, _ => []
  | n + 1, epoch, movingLoss, bscore =>
    let movingLoss' := trainFn epoch movingLoss
    let score := evalFn epoch
    let bscore' := saveCkpt score bscore epoch
    MainEvent.trainEv epoch :: MainEvent.evalEv epoch ::
      MainEvent.ckptEv epoch score bscore ::
        mainTrainLoopAux trainFn evalFn saveCkpt n (epoch + 1) movingLoss' bscore'

/-- The trace of `for epoch in range(last_epoch, args.epoch): ...`
(main.py lines 212-215). -/
def mainTrainLoop (trainFn : Nat → ℚ → ℚ) (evalFn : Nat → ℚ)
    (saveCkpt : ℚ → ℚ → Nat → ℚ) (lastEpoch argsEpoch : Nat) (ml bscore : ℚ) :
    List MainEvent :=
  mainTrainLoopAux trainFn evalFn saveCkpt (argsEpoch - lastEpoch) lastEpoch ml bscore

/-- The best score held before the checkpoint call of the `k`-th executed
epoch: `bscore` updated by `save_ckpt` for epochs `start, ..., start+k-1`. -/
def bscoreIter (evalFn : Nat → ℚ) (saveCkpt : ℚ → ℚ → Nat → ℚ) (bscore : ℚ)
    (start : Nat) : Nat → ℚ
  | 0 => bscore
  | k + 1 => saveCkpt (evalFn (start + k)) (bscoreIter evalFn saveCkpt bscore start k) (start + k)

/-! ### Numeric model of the encoder modules (model.py lines 7-108)

Tensors are total functions out of `Fin`-index types, with values in `ℚ`.
The framework scalar functions `torch.tanh`, `torch.sigmoid` and the `exp`
inside `F.softmax` are parameters; dropout layers are parametrised by their
multiplicative mask (identity mask = eval mode, Bernoulli-scaled mask =
train mode). -/

/-- The parameters of an `nn.Linear(inDim, outDim)`. -/
structure LinearParams (inDim outDim : Nat) where
  weight : Fin outDim → Fin inDim → ℚ
  bias : Fin outDim → ℚ

/-- `nn.Linear.forward`. -/
def linearForward {i o : Nat} (p : LinearParams i o) (x : Fin i → ℚ) : Fin o → ℚ :=
  fun j => (∑ k, p.weight j k * x k) + p.bias j

/-- The two linear layers of a `GatedTanh` block (model.py lines 7-13). -/
structure GatedTanhParams (inDim outDim : Nat) where
  i2t : LinearParams inDim outDim
  i2g : LinearParams inDim outDim

/-- `GatedTanh.forward` (model.py lines 15-21):
`tanh(i2t(x)) * sigmoid(i2g(x))`. -/
def gatedTanhForward (tanhF sigmoidF : ℚ → ℚ) {i o : Nat}
    (p : GatedTanhParams i o) (x : Fin i → ℚ) : Fin o → ℚ :=
  fun j => tanhF (linearForward p.i2t x j) * sigmoidF (linearForward p.i2g x j)

/-- `F.softmax` along a `Fin K` dimension, with `expF` the exponential. -/
def softmaxVec (expF : ℚ → ℚ) {K : Nat} (v : Fin K → ℚ) : Fin K → ℚ :=
  fun k => expF (v k) / ∑ j, expF (v j)

/-- The submodules of `TopDownAttention` (model.py lines 76-82). -/
structure TopDownAttentionParams (inp hid : Nat) where
  nonlinear : GatedTanhParams inp hid
  attn_layer : LinearParams hid 1

/-- `TopDownAttention.forward` (model.py lines 84-90) on an input of shape
`(N, K, inp)`: gated-tanh nonlinearity, a linear layer producing a single
attention score per region, then `F.softmax(attn_scores, dim=1)`, i.e.
softmax over the region dimension `K`. -/
def TopDownAttention.forwardImpl (tanhF sigmoidF expF : ℚ → ℚ) {inp hid N K : Nat}
    (p : TopDownAttentionParams inp hid)
    (data : Fin N → Fin K → Fin inp → ℚ) : Fin N → Fin K → Fin 1 → ℚ :=
  let gated : Fin N → Fin K → Fin hid → ℚ :=
    fun n k => gatedTanhForward tanhF sigmoidF p.nonlinear (data n k)
  let attn_scores : Fin N → Fin K → Fin 1 → ℚ :=
    fun n k => linearForward p.attn_layer (gated n k)
  fun n k o => softmaxVec expF (fun j => attn_scores n j o) k

/-- `torch.cat((u, w), dim)` along the feature dimension. -/
def catVec {E V : Nat} (u : Fin E → ℚ) (w : Fin V → ℚ) : Fin (E + V) → ℚ :=
  fun i =>
    if h : (i : ℕ) < E then u ⟨i, h⟩
    else w ⟨(i : ℕ) - E, by have hiv := i.isLt; omega⟩

/-- `ImageEncoder.forward` (model.py lines 100-108) with batch size `N`:
the question encoding is broadcast across the 36 regions
(`unsqueeze(1).expand(-1,36,-1)`), concatenated with the region features
(`torch.cat(..., 2)`), fed to `TopDownAttention`, and the output is
`torch.sum(torch.mul(img_features, attn_probs), dim=1)` followed by the
dropout `self.do1` (mask `doMask`). -/
def ImageEncoder.forwardImpl (tanhF sigmoidF expF : ℚ → ℚ) {N E V hid : Nat}
    (p : TopDownAttentionParams (E + V) hid)
    (doMask : Fin N → Fin V → ℚ)
    (img_features : Fin N → Fin 36 → Fin V → ℚ)
    (ques_features : Fin N → Fin E → ℚ) : Fin N → Fin V → ℚ :=
  let ques_expanded : Fin N → Fin 36 → Fin E → ℚ := fun n _ => ques_features n
  let concat_features : Fin N → Fin 36 → Fin (E + V) → ℚ :=
    fun n k => catVec (ques_expanded n k) (img_features n k)
  let attn_probs := TopDownAttention.forwardImpl tanhF sigmoidF expF p concat_features
  let img_encode : Fin N → Fin V → ℚ :=
    fun n v => ∑ k, img_features n k v * attn_probs n k 0
  fun n v => doMask n v * img_encode n v

/-! ### Numeric model of `AnswerDecoder.forward` (model.py lines 178-205)

`self.gru = nn.GRU(hidden_size, hidden_size)` is a single-layer GRU
(`num_layers` defaults to 1).  `forward` runs it on a length-1 input
sequence, so the GRU output at the single time step and the returned final
hidden state both equal `gruCell h x`, where `gruCell` is the (framework
supplied) GRU cell, `h` the incoming hidden state and `x` the input.  The
dropout `self.do1` is parametrised by its multiplicative mask. -/

/-- `AnswerDecoder.forward` (model.py lines 188-205).
`input_embed = tuple(val[input_step[idx]] for idx, val in enumerate(mca_embed))`
looks up, per batch element, the row of `mca_embed` selected by
`input_step`; after `torch.stack(...).unsqueeze(0)` it is a `(1, B, H)`
tensor.  The GRU runs on it with `last_hidden.permute(1, 0, 2)` as the
initial hidden state; the output scores are
`torch.bmm(mca_embed, gru_output.permute(1, 2, 0)).squeeze()` computed on
the dropped-out GRU output, and the method returns
`gru_hidden.permute(1, 0, 2)`, i.e. the new hidden state back in
batch-first `(B, 1, H)` layout. -/
def AnswerDecoder.forwardImpl {B A H : Nat}
    (gruCell : (Fin H → ℚ) → (Fin H → ℚ) → Fin H → ℚ)
    (doMask : Fin 1 → Fin B → Fin H → ℚ)
    (mca_embed : Fin B → Fin A → Fin H → ℚ)
    (input_step : Fin B → Fin A)
    (last_hidden : Fin B → Fin 1 → Fin H → ℚ) :
    (Fin B → Fin A → ℚ) × (Fin B → Fin 1 → Fin H → ℚ) :=
  let input_embed : Fin 1 → Fin B → Fin H → ℚ :=
    fun _ b => mca_embed b (input_step b)
  let h0 : Fin 1 → Fin B → Fin H → ℚ := fun l b h => last_hidden b l h
  let gru_output : Fin 1 → Fin B → Fin H → ℚ :=
    fun t b => gruCell (fun j => h0 0 b j) (fun j => input_embed t b j)
  let gru_hidden : Fin 1 → Fin B → Fin H → ℚ := gru_output
  let dropped : Fin 1 → Fin B → Fin H → ℚ :=
    fun t b h => doMask t b h * gru_output t b h
  let output : Fin B → Fin A → ℚ :=
    fun b a => ∑ h, mca_embed b a h * dropped 0 b h
  (output, fun b l h => gru_hidden l b h)

/-! ### The decoder loops of `train` and `evaluate` (main.py lines 19-68
and 71-148)

Both functions run, per batch, a loop over the answer positions
`t in range(a.size(1))`.  The decoder call `model[1](...)` is abstracted as
a function `decStep` from the current input token vector and the current
hidden state to the pair (per-class scores, next hidden state); the hidden
state lives in an arbitrary type `Hid`.  The per-element cross-entropy term
of `nn.CrossEntropyLoss` is abstracted as `ell logitsRow target`
(framework code); its `ignore_index` and mean reduction are modelled
explicitly below. -/

/-- Modelled from the spec: `constants.py` (imported by main.py with
`from constants import *`) is not part of the given sources.  `PAD_TOKEN`
is taken to be `0`, the padding-token value that `evaluate` inlines as
`ignore_index=0` (main.py line 23) where `train` writes
`ignore_index=PAD_TOKEN` (main.py line 83). -/
def PAD_TOKEN : Nat := 0

/-- The `ignore_index` of the loss constructed in `train`
(main.py line 83): `nn.CrossEntropyLoss(ignore_index=PAD_TOKEN)`. -/
def trainIgnoreIndex : Nat := PAD_TOKEN

/-- The `ignore_index` of the loss constructed in `evaluate`
(main.py line 23): `nn.CrossEntropyLoss(ignore_index=0)`. -/
def evaluateIgnoreIndex : Nat := 0

/-- `_, topi = decoder_output.topk(1)` followed by `topi[i][0]`: the index
of a maximal score in row `f` (the first maximal index). -/
def argmaxIdx {C : Nat} [NeZero C] (f : Fin C → ℚ) : Fin C :=
  ((List.finRange C).argmax f).getD ⟨0, Nat.pos_of_ne_zero (NeZero.ne C)⟩

/-- `nn.CrossEntropyLoss(ignore_index=ig)` with the default mean reduction,
applied to logits of shape `(B, C)` and targets of shape `(B,)`: batch
elements whose target equals `ig` are dropped both from the sum and from
the averaging count. -/
def crossEntropyMean {B C : Nat} (ell : (Fin C → ℚ) → Fin C → ℚ) (ig : Nat)
    (logits : Fin B → Fin C → ℚ) (target : Fin B → Fin C) : ℚ :=
  (∑ b, if (target b : ℕ) = ig then 0 else ell (logits b) (target b)) /
    ((univ.filter fun b : Fin B => (target b : ℕ) ≠ ig).card : ℚ)

/-- `nTotal = torch.sum(a[:, t] != PAD_TOKEN).float()` (main.py lines 59
and 125): the number of batch elements whose gold answer token at position
`t` is not the padding token. -/
def countNonPad {B T C : Nat} (a : Fin B → Fin T → Fin C) (t : Fin T) : ℚ :=
  ((univ.filter fun b : Fin B => (a b t : ℕ) ≠ PAD_TOKEN).card : ℚ)

/-- The loop-carried state of the decoder loops: the next decoder input,
the decoder hidden state, the list `decoder_out_idxs`, and the accumulators
`loss`, `print_loss`, `n_totals`. -/
structure DecLoopState (B C : Nat) (Hid : Type) where
  input : Fin B → Fin C
  hidden : Hid
  outIdxs : List (Fin B → Fin C)
  loss : ℚ
  printLoss : ℚ
  nTotals : ℚ

/-- One iteration of the decoder loop body shared by `train`
(main.py lines 110-127) and `evaluate` (main.py lines 47-61).  The two
functions differ in exactly two places: the `ignore_index` of the
cross-entropy loss (`ig`), and the next decoder input (`teacherForcing`
true: `decoder_input = a[:,t].view(-1)`, main.py line 119; false:
`decoder_input` is the greedy `topi` vector, main.py lines 52-53).  In
both, the greedy argmax vector is appended to `decoder_out_idxs`, and the
accumulators are updated by
`loss += step_loss`, `print_loss += step_loss.item() * nTotal`,
`n_totals += nTotal`. -/
def decoderLoopStep {B C T : Nat} {Hid : Type} [NeZero C]
    (decStep : (Fin B → Fin C) → Hid → (Fin B → Fin C → ℚ) × Hid)
    (ell : (Fin C → ℚ) → Fin C → ℚ) (ig : Nat) (teacherForcing : Bool)
    (a : Fin B → Fin T → Fin C) (t : Fin T) (s : DecLoopState B C Hid) :
    DecLoopState B C Hid :=
  let out := decStep s.input s.hidden
  let greedy : Fin B → Fin C := fun b => argmaxIdx (out.1 b)
  let stepLoss := crossEntropyMean ell ig out.1 (fun b => a b t)
  let nT := countNonPad a t
  { input := if teacherForcing then (fun b => a b t) else greedy
    hidden := out.2
    outIdxs := s.outIdxs ++ [greedy]
    loss := s.loss + stepLoss
    printLoss := s.printLoss + stepLoss * nT
    nTotals := s.nTotals + nT }

/-- The decoder loop after `n` iterations of `for t in range(a.size(1))`,
starting from state `s` (iterations beyond `T` do nothing). -/
def decoderLoopFrom {B C T : Nat} {Hid : Type} [NeZero C]
    (decStep : (Fin B → Fin C) → Hid → (Fin B → Fin C → ℚ) × Hid)
    (ell : (Fin C → ℚ) → Fin C → ℚ) (ig : Nat) (teacherForcing : Bool)
    (a : Fin B → Fin T → Fin C) (s : DecLoopState B C Hid) : Nat → DecLoopState B C Hid
  | 0 => s
  | n + 1 =>
    if h : n < T then
      decoderLoopStep decStep ell ig teacherForcing a ⟨n, h⟩
        (decoderLoopFrom decStep ell ig teacherForcing a s n)
    else decoderLoopFrom decStep ell ig teacherForcing a s n

/-- The initial state of both decoder loops (main.py lines 34-45 and
96-108): `decoder_input` is the all-`SOS_TOKEN` vector (`sosTok` models
`SOS_TOKEN` from the absent `constants.py`), `decoder_hidden` is
`joint_embed.unsqueeze(1)`, `decoder_out_idxs = []`, and the three
accumulators start at `0`. -/
def decInit {B C : Nat} {Hid : Type} (sosTok : Fin C) (initHidden : Hid) :
    DecLoopState B C Hid :=
  ⟨fun _ => sosTok, initHidden, [], 0, 0, 0⟩

/-- The state of the `train` decoder loop (main.py lines 110-127) after `n`
iterations. -/
def trainStateAt {B C T : Nat} {Hid : Type} [NeZero C]
    (decStep : (Fin B → Fin C) → Hid → (Fin B → Fin C → ℚ) × Hid)
    (ell : (Fin C → ℚ) → Fin C → ℚ)
    (a : Fin B → Fin T → Fin C) (sosTok : Fin C) (initHidden : Hid) (n : Nat) :
    DecLoopState B C Hid :=
  decoderLoopFrom decStep ell trainIgnoreIndex true a (decInit sosTok initHidden) n

/-- The state of the `evaluate` decoder loop (main.py lines 47-61) after
`n` iterations. -/
def evaluateStateAt {B C T : Nat} {Hid : Type} [NeZero C]
    (decStep : (Fin B → Fin C) → Hid → (Fin B → Fin C → ℚ) × Hid)
    (ell : (Fin C → ℚ) → Fin C → ℚ)
    (a : Fin B → Fin T → Fin C) (sosTok : Fin C) (initHidden : Hid) (n : Nat) :
    DecLoopState B C Hid :=
  decoderLoopFrom decStep ell evaluateIgnoreIndex false a (decInit sosTok initHidden) n

/-- `step_loss` of the `n`-th iteration of the generic decoder loop,
started at state `s`. -/
def stepLossAt {B C T : Nat} {Hid : Type} [NeZero C]
    (decStep : (Fin B → Fin C) → Hid → (Fin B → Fin C → ℚ) × Hid)
    (ell : (Fin C → ℚ) → Fin C → ℚ) (ig : Nat) (teacherForcing : Bool)
    (a : Fin B → Fin T → Fin C) (s : DecLoopState B C Hid) (t : Fin T) : ℚ :=
  let sPrev := decoderLoopFrom decStep ell ig teacherForcing a s (t : ℕ)
  crossEntropyMean ell ig (decStep sPrev.input sPrev.hidden).1 (fun b => a b t)

/-- The per-batch loss value both loops report, `(print_loss / n_totals)`
(main.py lines 65, 140-141). -/
def reportedBatchLoss {B C : Nat} {Hid : Type} (s : DecLoopState B C Hid) : ℚ :=
  s.printLoss / s.nTotals


/-! ### Concrete instances used by the witness theorems -/

/-- The constant-one scalar function (a positive stand-in for exp, and an
identity-mask constructor for the activations in witnesses). -/
def constOneQ : ℚ → ℚ := fun _ => 1

/-- A concrete 2-input, 1-output linear layer. -/
def c5wLinear : LinearParams (1 + 1) 1 := ⟨fun _ _ => 1, fun _ => 0⟩

/-- A concrete gated-tanh block. -/
def c5wGated : GatedTanhParams (1 + 1) 1 := ⟨c5wLinear, c5wLinear⟩

/-- A concrete `TopDownAttention` parameter set. -/
def c5wAttn : TopDownAttentionParams (1 + 1) 1 := ⟨c5wGated, ⟨fun _ _ => 1, fun _ => 0⟩⟩

/-- Concrete region features: batch 1, 36 regions, 1 channel, all ones. -/
def c5wImg : Fin 1 → Fin 36 → Fin 1 → ℚ := fun _ _ _ => 1

/-- A concrete question encoding. -/
def c5wQues : Fin 1 → Fin 1 → ℚ := fun _ _ => 1

/-- An eval-mode (identity) dropout mask for the image encoder. -/
def c5wMask : Fin 1 → Fin 1 → ℚ := fun _ _ => 1

/-- A concrete GRU cell on a 1-dimensional hidden state. -/
def c7wCell : (Fin 1 → ℚ) → (Fin 1 → ℚ) → Fin 1 → ℚ := fun h x j => h j + x j

/-- A concrete candidate-answer embedding tensor. -/
def c7wMca : Fin 1 → Fin 1 → Fin 1 → ℚ := fun _ _ _ => 1

/-- A concrete previous-answer index vector. -/
def c7wStep : Fin 1 → Fin 1 := fun _ => 0

/-- A concrete incoming hidden state. -/
def c7wHidden : Fin 1 → Fin 1 → Fin 1 → ℚ := fun _ _ _ => 1

/-- An eval-mode (identity) dropout mask for the decoder. -/
def c7wMask : Fin 1 → Fin 1 → Fin 1 → ℚ := fun _ _ _ => 1

/-- A concrete decoder step on batch 1, 2 classes, trivial hidden state. -/
def c1wDec : (Fin 1 → Fin 2) → Unit → (Fin 1 → Fin 2 → ℚ) × Unit :=
  fun _ _ => (fun _ _ => 0, ())

/-- A concrete per-element cross-entropy term. -/
def c1wEll : (Fin 2 → ℚ) → Fin 2 → ℚ := fun _ _ => 0

/-- A concrete gold-answer tensor (one batch element, one position,
token 1). -/
def c1wA : Fin 1 → Fin 1 → Fin 2 := fun _ _ => 1

/-- A concrete decoder step preferring class 0. -/
def c10wDec : (Fin 1 → Fin 2) → Unit → (Fin 1 → Fin 2 → ℚ) × Unit :=
  fun _ _ => (fun _ c => if c = 0 then 1 else 0, ())

/-- A concrete per-element cross-entropy term reading off the target
logit. -/
def c10wEll : (Fin 2 → ℚ) → Fin 2 → ℚ := fun row c => row c

/-- A concrete gold-answer tensor with a non-PAD token. -/
def c10wA : Fin 1 → Fin 1 → Fin 2 := fun _ _ => 1

/-- A concrete all-PAD target vector. -/
def c10wTargetPad : Fin 1 → Fin 2 := fun _ => 0

/-- Concrete logits. -/
def c10wLogits : Fin 1 → Fin 2 → ℚ := fun _ _ => 0

/-- Concrete logits differing from `c10wLogits` (only) at the PAD-target
batch element. -/
def c10wLogitsB : Fin 1 → Fin 2 → ℚ := fun _ _ => 5

/-! ### Theorems -/

/-- C2: For every execution of `main` that reaches model setup, model
construction raises `TypeError`: `main` calls `VqaEncoder` with four
arguments while `VqaEncoder.__init__` requires a fifth argument `num_ans`,
and calls `AnswerDecoder` with three arguments while
`AnswerDecoder.__init__` accepts only `hidden_size`; either call alone
already raises. -/
theorem c2_model_construction_raises_typeError :
    mainModelSetup = Except.error PyError.typeError ∧
    pyCall VqaEncoder.initParams mainVqaEncoderCallNargs () =
      (Except.error PyError.typeError : Except PyError Unit) ∧
    pyCall AnswerDecoder.initParams mainAnswerDecoderCallNargs () =
      (Except.error PyError.typeError : Except PyError Unit) ∧
    VqaEncoder.initParams.params.length = 5 ∧
    VqaEncoder.initParams.params.getLast? = some "num_ans" ∧
    mainVqaEncoderCallNargs = 4 ∧
    AnswerDecoder.initParams.params = ["hidden_size"] ∧
    mainAnswerDecoderCallNargs = 3 :=
  ⟨rfl, rfl, rfl, rfl, rfl, rfl, rfl, rfl⟩

/-- C3: In both `train` and `evaluate`, the per-batch forward invocations
raise `TypeError`: the encoder is called as `model[0](v, q, q_lens)` with
three arguments while `VqaEncoder.forward` requires four
(`images, questions, mca, q_lens`), and the decoder is called as
`model[1](decoder_input, decoder_hidden)` with two arguments while
`AnswerDecoder.forward` requires a third argument `mca_embed`. -/
theorem c3_forward_invocations_raise_typeError :
    trainBatchForward = Except.error PyError.typeError ∧
    evaluateBatchForward = Except.error PyError.typeError ∧
    pyCall VqaEncoder.forwardParams trainEncoderForwardNargs () =
      (Except.error PyError.typeError : Except PyError Unit) ∧
    pyCall AnswerDecoder.forwardParams trainDecoderForwardNargs () =
      (Except.error PyError.typeError : Except PyError Unit) ∧
    pyCall VqaEncoder.forwardParams evaluateEncoderForwardNargs () =
      (Except.error PyError.typeError : Except PyError Unit) ∧
    pyCall AnswerDecoder.forwardParams evaluateDecoderForwardNargs () =
      (Except.error PyError.typeError : Except PyError Unit) ∧
    VqaEncoder.forwardParams.params = ["images", "questions", "mca", "q_lens"] ∧
    AnswerDecoder.forwardParams.params.getLast? = some "mca_embed" :=
  ⟨rfl, rfl, rfl, rfl, rfl, rfl, rfl, rfl⟩

/-- C9: With GPU mode selected (`args.cpu` false), the device-selection
block of `main` raises `RuntimeError` if and only if CUDA is unavailable;
when CUDA is available it multiplies `args.batch_size` by the number of
CUDA devices, and the model-wrapping loop wraps each of the two modules in
`nn.DataParallel` before moving it to the device. -/
theorem c9_gpu_setup (env : CudaEnv) (bs : Nat) :
    (deviceSetup false env bs = Except.error PyError.runtimeError ↔
      env.available = false) ∧
    (env.available = true →
      deviceSetup false env bs = Except.ok ⟨Device.cuda, bs * env.deviceCount⟩) ∧
    wrapModules Device.cuda [PyModule.vqaEncM, PyModule.ansDecM] =
      [PyModule.toDevice (PyModule.dataParallel PyModule.vqaEncM) Device.cuda,
       PyModule.toDevice (PyModule.dataParallel PyModule.ansDecM) Device.cuda] := by
  refine ⟨?_, ?_, rfl⟩
  · cases h : env.available <;> simp [deviceSetup, h]
  · intro h
    simp [deviceSetup, h]

/-- Witness for C9: a CUDA environment with 3 devices and batch size 4
yields batch size 12 on the cuda device, and an environment without CUDA
raises `RuntimeError`. -/
theorem c9_gpu_setup_witness :
    deviceSetup false ⟨true, 3⟩ 4 = Except.ok ⟨Device.cuda, 12⟩ ∧
    deviceSetup false ⟨false, 3⟩ 4 = Except.error PyError.runtimeError :=
  ⟨(c9_gpu_setup ⟨true, 3⟩ 4).2.1 rfl, (c9_gpu_setup ⟨false, 3⟩ 4).1.mpr rfl⟩

/-- C4 (counterexample): the stage order asserted by the spec - encoder
modules, then joint embedding, then attention, then decoder - does not
hold of the pipeline: in `VqaEncoder.forward` the attention is applied
(inside `ImageEncoder.forward`, model.py line 104) before the joint
embedding (model.py line 233), and the answer encoder runs after the joint
embedding (model.py line 235). -/
theorem c4_spec_order_fails :
    respectsOrder specClaimedStageOrder trainPipelineStageTrace = false := by
  decide

/-- C4 (amended): the forward pipeline applies its stages in the order:
question encoder, then attention (inside the image encoder), then the
attended image encoding, then the joint embedding, then the answer
encoder, and the decoder last. -/
theorem c4_stage_order :
    respectsOrder actualStageOrder trainPipelineStageTrace = true ∧
    trainPipelineStageTrace = actualStageOrder ∧
    stageBefore trainPipelineStageTrace Stage.quesEncS Stage.attentionS = true ∧
    stageBefore trainPipelineStageTrace Stage.attentionS Stage.jointEmbedS = true ∧
    stageBefore trainPipelineStageTrace Stage.jointEmbedS Stage.ansEncS = true ∧
    stageBefore trainPipelineStageTrace Stage.ansEncS Stage.decoderS = true := by
  decide

/-- C6: at construction, both text encoders end up with their embedding
weights equal to the pretrained GloVe arrays loaded from
`data/glove_pretrained_question.npy` (QuestionEncoder) and
`data/glove_pretrained_answer.npy` (AnswerEncoder), for every random
initialization - the random weights are overwritten. -/
theorem c6_pretrained_embeddings (Vq Eq Va Ea : Nat)
    (load : String → Nat → Nat → ℚ)
    (rinitQ : Fin Vq → Fin Eq → ℚ) (rinitA : Fin Va → Fin Ea → ℚ) :
    QuestionEncoder.initEmbeddingWeight Vq Eq load rinitQ =
      (fun (v : Fin Vq) (e : Fin Eq) =>
        load "data/glove_pretrained_question.npy" (v : ℕ) (e : ℕ)) ∧
    AnswerEncoder.initEmbeddingWeight Va Ea load rinitA =
      (fun (v : Fin Va) (e : Fin Ea) =>
        load "data/glove_pretrained_answer.npy" (v : ℕ) (e : ℕ)) := by
  constructor <;>
  · funext v e
    show (if 0 ≤ (v : ℕ) ∧ (v : ℕ) < _ then _ else _) = _
    rw [if_pos ⟨Nat.zero_le _, v.isLt⟩]
    rfl

/-- Shifting the starting epoch of `bscoreIter` by one iteration. -/
theorem bscoreIter_succ_shift (evalFn : Nat → ℚ) (saveCkpt : ℚ → ℚ → Nat → ℚ)
    (bs : ℚ) (start : Nat) :
    ∀ k, bscoreIter evalFn saveCkpt bs start (k + 1) =
      bscoreIter evalFn saveCkpt (saveCkpt (evalFn start) bs start) (start + 1) k := by
  intro k
  induction k with
  | zero => rfl
  | succ k ih =>
    show saveCkpt (evalFn (start + (k + 1)))
        (bscoreIter evalFn saveCkpt bs start (k + 1)) (start + (k + 1)) =
      saveCkpt (evalFn (start + 1 + k))
        (bscoreIter evalFn saveCkpt (saveCkpt (evalFn start) bs start) (start + 1) k)
        (start + 1 + k)
    rw [ih]
    have h : start + (k + 1) = start + 1 + k := by omega
    rw [h]

/-- The epoch loop emits, for the `k`-th remaining epoch, the train event,
the evaluate event and the checkpoint event with the score of that epoch
and the best score accumulated so far. -/
theorem mainTrainLoopAux_eq (trainFn : Nat → ℚ → ℚ) (evalFn : Nat → ℚ)
    (saveCkpt : ℚ → ℚ → Nat → ℚ) :
    ∀ (n epoch : Nat) (ml bs : ℚ),
      mainTrainLoopAux trainFn evalFn saveCkpt n epoch ml bs =
        (List.range n).flatMap (fun k =>
          [MainEvent.trainEv (epoch + k), MainEvent.evalEv (epoch + k),
           MainEvent.ckptEv (epoch + k) (evalFn (epoch + k))
             (bscoreIter evalFn saveCkpt bs epoch k)]) := by
  intro n
  induction n with
  | zero => intro epoch ml bs; rfl
  | succ n ih =>
    intro epoch ml bs
    have ih1 := ih (epoch + 1) (trainFn epoch ml) (saveCkpt (evalFn epoch) bs epoch)
    simp only [mainTrainLoopAux]
    rw [ih1, List.range_succ_eq_map, List.flatMap_cons, List.flatMap_map]
    have h0 : bscoreIter evalFn saveCkpt bs epoch 0 = bs := rfl
    simp only [Nat.succ_eq_add_one, Nat.add_zero, Function.comp, h0,
      List.cons_append, List.nil_append]
    congr 1
    congr 1
    congr 1
    congr 1
    funext k
    rw [bscoreIter_succ_shift]
    have h : epoch + (k + 1) = epoch + 1 + k := by omega
    rw [h]

/-- C8: In train mode, the epoch loop of `main` (main.py lines 212-215)
performs, for each epoch `last_epoch + k` with
`k < args.epoch - last_epoch`, exactly one training pass, then one
evaluation pass, then one `save_ckpt` call receiving that epoch's
evaluation score and the best score accumulated over the earlier epochs,
in that order; no evaluation of an epoch precedes that epoch's training. -/
theorem c8_epoch_loop (trainFn : Nat → ℚ → ℚ) (evalFn : Nat → ℚ)
    (saveCkpt : ℚ → ℚ → Nat → ℚ) (lastEpoch argsEpoch : Nat) (ml bs : ℚ) :
    mainTrainLoop trainFn evalFn saveCkpt lastEpoch argsEpoch ml bs =
      (List.range (argsEpoch - lastEpoch)).flatMap (fun k =>
        [MainEvent.trainEv (lastEpoch + k), MainEvent.evalEv (lastEpoch + k),
         MainEvent.ckptEv (lastEpoch + k) (evalFn (lastEpoch + k))
           (bscoreIter evalFn saveCkpt bs lastEpoch k)]) :=
  mainTrainLoopAux_eq trainFn evalFn saveCkpt (argsEpoch - lastEpoch) lastEpoch ml bs

/-- C5: for every batch, the image encoding fuses visual and textual
features by attention: the attention probabilities are the softmax, over
the 36-region dimension, of scores computed from the concatenation of the
(broadcast) question encoding with the region features; they sum to 1 over
the regions; and (with the dropout in eval mode) the image encoding is the
attention-weighted sum of the region features. -/
theorem c5_attention_fusion (N E V hid : Nat) (tanhF sigmoidF expF : ℚ → ℚ)
    (p : TopDownAttentionParams (E + V) hid)
    (doMask : Fin N → Fin V → ℚ)
    (img : Fin N → Fin 36 → Fin V → ℚ) (ques : Fin N → Fin E → ℚ)
    (hexp : ∀ x : ℚ, 0 < expF x) (hdo : ∀ n v, doMask n v = 1) :
    (∀ n k, TopDownAttention.forwardImpl tanhF sigmoidF expF p
        (fun m j => catVec (ques m) (img m j)) n k 0 =
      softmaxVec expF (fun j =>
        linearForward p.attn_layer
          (gatedTanhForward tanhF sigmoidF p.nonlinear
            (catVec (ques n) (img n j))) 0) k) ∧
    (∀ n, ∑ k, TopDownAttention.forwardImpl tanhF sigmoidF expF p
        (fun m j => catVec (ques m) (img m j)) n k 0 = 1) ∧
    ImageEncoder.forwardImpl tanhF sigmoidF expF p doMask img ques =
      (fun n v => ∑ k, img n k v *
        TopDownAttention.forwardImpl tanhF sigmoidF expF p
          (fun m j => catVec (ques m) (img m j)) n k 0) := by
  refine ⟨fun n k => rfl, fun n => ?_, ?_⟩
  · simp only [TopDownAttention.forwardImpl, softmaxVec]
    rw [← Finset.sum_div]
    exact div_self (ne_of_gt (Finset.sum_pos (fun j _ => hexp _) Finset.univ_nonempty))
  · funext n v
    show doMask n v * _ = _
    rw [hdo, one_mul]

/-- Witness for C5 at batch size 1, one feature channel, all-ones inputs,
constant-one activations and an identity dropout mask. -/
theorem c5_attention_fusion_witness :
    (∀ x : ℚ, 0 < constOneQ x) ∧
    ((∀ n k, TopDownAttention.forwardImpl constOneQ constOneQ constOneQ c5wAttn
        (fun m j => catVec (c5wQues m) (c5wImg m j)) n k 0 =
      softmaxVec constOneQ (fun j =>
        linearForward c5wAttn.attn_layer
          (gatedTanhForward constOneQ constOneQ c5wAttn.nonlinear
            (catVec (c5wQues n) (c5wImg n j))) 0) k) ∧
    (∀ n, ∑ k, TopDownAttention.forwardImpl constOneQ constOneQ constOneQ c5wAttn
        (fun m j => catVec (c5wQues m) (c5wImg m j)) n k 0 = 1) ∧
    ImageEncoder.forwardImpl constOneQ constOneQ constOneQ c5wAttn c5wMask c5wImg c5wQues =
      (fun n v => ∑ k, c5wImg n k v *
        TopDownAttention.forwardImpl constOneQ constOneQ constOneQ c5wAttn
          (fun m j => catVec (c5wQues m) (c5wImg m j)) n k 0)) :=
  ⟨fun _ => one_pos,
   c5_attention_fusion 1 1 1 1 constOneQ constOneQ constOneQ c5wAttn c5wMask
     c5wImg c5wQues (fun _ => one_pos) (fun _ _ => rfl)⟩

/-- C7: the answer decoder is recurrent: `AnswerDecoder.forward` feeds the
single-layer GRU the `mca_embed` row selected per batch element by the
previously chosen answer index, its output scores (with the dropout in
eval mode) are the batch matrix product of the candidate-answer embeddings
with the GRU output, and the returned hidden state is the new GRU hidden
state in the same batch-first `(B, 1, H)` layout as the `last_hidden` it
received. -/
theorem c7_answer_decoder (B A H : Nat)
    (gruCell : (Fin H → ℚ) → (Fin H → ℚ) → Fin H → ℚ)
    (doMask : Fin 1 → Fin B → Fin H → ℚ)
    (mca_embed : Fin B → Fin A → Fin H → ℚ)
    (input_step : Fin B → Fin A)
    (last_hidden : Fin B → Fin 1 → Fin H → ℚ)
    (hdo : ∀ t b h, doMask t b h = 1) :
    (AnswerDecoder.forwardImpl gruCell doMask mca_embed input_step last_hidden).1 =
      (fun b a => ∑ h, mca_embed b a h *
        gruCell (fun j => last_hidden b 0 j)
          (fun j => mca_embed b (input_step b) j) h) ∧
    (AnswerDecoder.forwardImpl gruCell doMask mca_embed input_step last_hidden).2 =
      (fun b _ h => gruCell (fun j => last_hidden b 0 j)
        (fun j => mca_embed b (input_step b) j) h) := by
  constructor
  · funext b a
    simp only [AnswerDecoder.forwardImpl]
    refine Finset.sum_congr rfl fun h _ => ?_
    rw [hdo, one_mul]
  · funext b l h
    rfl

/-- Witness for C7 at batch 1, one candidate answer, one hidden channel,
with an additive GRU cell and an identity dropout mask. -/
theorem c7_answer_decoder_witness :
    (∀ t b h, c7wMask t b h = 1) ∧
    ((AnswerDecoder.forwardImpl c7wCell c7wMask c7wMca c7wStep c7wHidden).1 =
      (fun b a => ∑ h, c7wMca b a h *
        c7wCell (fun j => c7wHidden b 0 j)
          (fun j => c7wMca b (c7wStep b) j) h) ∧
    (AnswerDecoder.forwardImpl c7wCell c7wMask c7wMca c7wStep c7wHidden).2 =
      (fun b _ h => c7wCell (fun j => c7wHidden b 0 j)
        (fun j => c7wMca b (c7wStep b) j) h)) :=
  ⟨fun _ _ _ => rfl,
   c7_answer_decoder 1 1 1 c7wCell c7wMask c7wMca c7wStep c7wHidden (fun _ _ _ => rfl)⟩

/-- Unfolding one iteration of the decoder loop at a valid timestep. -/
theorem decoderLoopFrom_succ {B C T : Nat} {Hid : Type} [NeZero C]
    (decStep : (Fin B → Fin C) → Hid → (Fin B → Fin C → ℚ) × Hid)
    (ell : (Fin C → ℚ) → Fin C → ℚ) (ig : Nat) (tf : Bool)
    (a : Fin B → Fin T → Fin C) (s : DecLoopState B C Hid) (t : Fin T) :
    decoderLoopFrom decStep ell ig tf a s ((t : ℕ) + 1) =
      decoderLoopStep decStep ell ig tf a t
        (decoderLoopFrom decStep ell ig tf a s (t : ℕ)) := by
  show (if h : (t : ℕ) < T then _ else _) = _
  rw [dif_pos t.isLt]

/-- The decoder loop never reads `outIdxs`: two start states agreeing on
every other field produce runs agreeing on every other field. -/
theorem decoderLoopFrom_outIdxs_free {B C T : Nat} {Hid : Type} [NeZero C]
    (decStep : (Fin B → Fin C) → Hid → (Fin B → Fin C → ℚ) × Hid)
    (ell : (Fin C → ℚ) → Fin C → ℚ) (ig : Nat) (tf : Bool)
    (a : Fin B → Fin T → Fin C) :
    ∀ (n : Nat) (s₁ s₂ : DecLoopState B C Hid),
      s₁.input = s₂.input → s₁.hidden = s₂.hidden → s₁.loss = s₂.loss →
      s₁.printLoss = s₂.printLoss → s₁.nTotals = s₂.nTotals →
      ((decoderLoopFrom decStep ell ig tf a s₁ n).input =
          (decoderLoopFrom decStep ell ig tf a s₂ n).input ∧
        (decoderLoopFrom decStep ell ig tf a s₁ n).hidden =
          (decoderLoopFrom decStep ell ig tf a s₂ n).hidden ∧
        (decoderLoopFrom decStep ell ig tf a s₁ n).loss =
          (decoderLoopFrom decStep ell ig tf a s₂ n).loss ∧
        (decoderLoopFrom decStep ell ig tf a s₁ n).printLoss =
          (decoderLoopFrom decStep ell ig tf a s₂ n).printLoss ∧
        (decoderLoopFrom decStep ell ig tf a s₁ n).nTotals =
          (decoderLoopFrom decStep ell ig tf a s₂ n).nTotals) := by
  intro n
  induction n with
  | zero => intro s₁ s₂ h1 h2 h3 h4 h5; exact ⟨h1, h2, h3, h4, h5⟩
  | succ n ih =>
    intro s₁ s₂ h1 h2 h3 h4 h5
    obtain ⟨i1, i2, i3, i4, i5⟩ := ih s₁ s₂ h1 h2 h3 h4 h5
    by_cases h : n < T
    · simp only [decoderLoopFrom, dif_pos h]
      refine ⟨?_, ?_, ?_, ?_, ?_⟩ <;>
        simp only [decoderLoopStep, i1, i2, i3, i4, i5]
    · simp only [decoderLoopFrom, dif_neg h]
      exact ⟨i1, i2, i3, i4, i5⟩

/-- After `n ≤ T` iterations, `print_loss` is the start value plus the
`nTotal`-weighted sum of the step losses so far, and `n_totals` is the
start value plus the sum of the non-PAD counts so far. -/
theorem decoderLoopFrom_accum {B C T : Nat} {Hid : Type} [NeZero C]
    (decStep : (Fin B → Fin C) → Hid → (Fin B → Fin C → ℚ) × Hid)
    (ell : (Fin C → ℚ) → Fin C → ℚ) (ig : Nat) (tf : Bool)
    (a : Fin B → Fin T → Fin C) (s : DecLoopState B C Hid) :
    ∀ n, n ≤ T →
      ((decoderLoopFrom decStep ell ig tf a s n).printLoss =
          s.printLoss + (((List.finRange T).take n).map
            (fun t => stepLossAt decStep ell ig tf a s t * countNonPad a t)).sum ∧
        (decoderLoopFrom decStep ell ig tf a s n).nTotals =
          s.nTotals + (((List.finRange T).take n).map
            (fun t => countNonPad a t)).sum) := by
  intro n
  induction n with
  | zero => intro _; constructor <;> simp [decoderLoopFrom]
  | succ n ih =>
    intro hn
    have h : n < T := Nat.lt_of_succ_le hn
    obtain ⟨ih1, ih2⟩ := ih (Nat.le_of_lt h)
    have htake : ((List.finRange T).take (n + 1)) =
        ((List.finRange T).take n) ++ [(⟨n, h⟩ : Fin T)] := by
      rw [List.take_succ, List.getElem?_eq_getElem (by simpa using h)]
      simp [List.getElem_finRange]
    have hstep : stepLossAt decStep ell ig tf a s (⟨n, h⟩ : Fin T) =
        crossEntropyMean ell ig
          ((decStep (decoderLoopFrom decStep ell ig tf a s n).input
            (decoderLoopFrom decStep ell ig tf a s n).hidden).1)
          (fun b => a b ⟨n, h⟩) := rfl
    simp only [decoderLoopFrom, dif_pos h, decoderLoopStep, htake,
      List.map_append, List.sum_append, List.map_cons, List.map_nil,
      List.sum_cons, List.sum_nil, ih1, ih2, hstep]
    constructor <;> ring

/-- The mean cross-entropy with `ignore_index` equals the mean over the
non-ignored batch elements only: ignored positions contribute nothing. -/
theorem crossEntropyMean_filter_form {B C : Nat} (ell : (Fin C → ℚ) → Fin C → ℚ)
    (ig : Nat) (logits : Fin B → Fin C → ℚ) (target : Fin B → Fin C) :
    crossEntropyMean ell ig logits target =
      (∑ b in univ.filter (fun b : Fin B => (target b : ℕ) ≠ ig),
        ell (logits b) (target b)) /
        ((univ.filter fun b : Fin B => (target b : ℕ) ≠ ig).card : ℚ) := by
  unfold crossEntropyMean
  congr 1
  rw [Finset.sum_filter]
  refine Finset.sum_congr rfl fun b _ => ?_
  by_cases h : (target b : ℕ) = ig <;> simp [h]

/-- The mean cross-entropy with `ignore_index` does not depend on the
logits of ignored batch elements. -/
theorem crossEntropyMean_congr_nonignored {B C : Nat}
    (ell : (Fin C → ℚ) → Fin C → ℚ) (ig : Nat)
    (logits logits' : Fin B → Fin C → ℚ) (target : Fin B → Fin C)
    (hsame : ∀ b, (target b : ℕ) ≠ ig → logits b = logits' b) :
    crossEntropyMean ell ig logits target =
      crossEntropyMean ell ig logits' target := by
  unfold crossEntropyMean
  congr 1
  refine Finset.sum_congr rfl fun b _ => ?_
  by_cases h : (target b : ℕ) = ig
  · simp [h]
  · simp [h, hsame b h]

/-- C1: in `train`, for every timestep `t` of the decoder loop, the input
fed to the decoder at step `t+1` is the ground-truth answer token
`a[:, t]` (teacher forcing) - for every decoder behaviour, so in
particular independently of the decoder's own prediction; the greedy
argmax of the step-`t` decoder output is appended to `decoder_out_idxs`;
the next hidden state and the loss come from the raw decoder output and
the gold tokens; and `decoder_out_idxs` is never read back by the loop
(all other state components are independent of it). -/
theorem c1_teacher_forcing (B C T : Nat) [NeZero C] (Hid : Type)
    (decStep : (Fin B → Fin C) → Hid → (Fin B → Fin C → ℚ) × Hid)
    (ell : (Fin C → ℚ) → Fin C → ℚ)
    (a : Fin B → Fin T → Fin C) (sosTok : Fin C) (h0 : Hid) (t : Fin T) :
    (trainStateAt decStep ell a sosTok h0 ((t : ℕ) + 1)).input = (fun b => a b t) ∧
    (trainStateAt decStep ell a sosTok h0 ((t : ℕ) + 1)).outIdxs =
      (trainStateAt decStep ell a sosTok h0 (t : ℕ)).outIdxs ++
        [fun b => argmaxIdx
          ((decStep (trainStateAt decStep ell a sosTok h0 (t : ℕ)).input
              (trainStateAt decStep ell a sosTok h0 (t : ℕ)).hidden).1 b)] ∧
    (trainStateAt decStep ell a sosTok h0 ((t : ℕ) + 1)).hidden =
      (decStep (trainStateAt decStep ell a sosTok h0 (t : ℕ)).input
        (trainStateAt decStep ell a sosTok h0 (t : ℕ)).hidden).2 ∧
    (trainStateAt decStep ell a sosTok h0 ((t : ℕ) + 1)).loss =
      (trainStateAt decStep ell a sosTok h0 (t : ℕ)).loss +
        crossEntropyMean ell trainIgnoreIndex
          ((decStep (trainStateAt decStep ell a sosTok h0 (t : ℕ)).input
              (trainStateAt decStep ell a sosTok h0 (t : ℕ)).hidden).1)
          (fun b => a b t) ∧
    (∀ (n : Nat) (s₁ s₂ : DecLoopState B C Hid),
      s₁.input = s₂.input → s₁.hidden = s₂.hidden → s₁.loss = s₂.loss →
      s₁.printLoss = s₂.printLoss → s₁.nTotals = s₂.nTotals →
      ((decoderLoopFrom decStep ell trainIgnoreIndex true a s₁ n).input =
          (decoderLoopFrom decStep ell trainIgnoreIndex true a s₂ n).input ∧
        (decoderLoopFrom decStep ell trainIgnoreIndex true a s₁ n).hidden =
          (decoderLoopFrom decStep ell trainIgnoreIndex true a s₂ n).hidden ∧
        (decoderLoopFrom decStep ell trainIgnoreIndex true a s₁ n).loss =
          (decoderLoopFrom decStep ell trainIgnoreIndex true a s₂ n).loss ∧
        (decoderLoopFrom decStep ell trainIgnoreIndex true a s₁ n).printLoss =
          (decoderLoopFrom decStep ell trainIgnoreIndex true a s₂ n).printLoss ∧
        (decoderLoopFrom decStep ell trainIgnoreIndex true a s₁ n).nTotals =
          (decoderLoopFrom decStep ell trainIgnoreIndex true a s₂ n).nTotals)) := by
  have hstep := decoderLoopFrom_succ decStep ell trainIgnoreIndex true a
    (decInit sosTok h0) t
  unfold trainStateAt
  rw [hstep]
  exact ⟨rfl, rfl, rfl, rfl,
    decoderLoopFrom_outIdxs_free decStep ell trainIgnoreIndex true a⟩

/-- Witness for C1 at batch 1, two classes, one timestep, trivial hidden
state. -/
theorem c1_teacher_forcing_witness :
    (trainStateAt c1wDec c1wEll c1wA 1 () 1).input = (fun b => c1wA b 0) ∧
    (trainStateAt c1wDec c1wEll c1wA 1 () 1).outIdxs =
      (trainStateAt c1wDec c1wEll c1wA 1 () 0).outIdxs ++
        [fun b => argmaxIdx
          ((c1wDec (trainStateAt c1wDec c1wEll c1wA 1 () 0).input
              (trainStateAt c1wDec c1wEll c1wA 1 () 0).hidden).1 b)] ∧
    (trainStateAt c1wDec c1wEll c1wA 1 () 1).hidden =
      (c1wDec (trainStateAt c1wDec c1wEll c1wA 1 () 0).input
        (trainStateAt c1wDec c1wEll c1wA 1 () 0).hidden).2 ∧
    (trainStateAt c1wDec c1wEll c1wA 1 () 1).loss =
      (trainStateAt c1wDec c1wEll c1wA 1 () 0).loss +
        crossEntropyMean c1wEll trainIgnoreIndex
          ((c1wDec (trainStateAt c1wDec c1wEll c1wA 1 () 0).input
              (trainStateAt c1wDec c1wEll c1wA 1 () 0).hidden).1)
          (fun b => c1wA b 0) ∧
    (∀ (n : Nat) (s₁ s₂ : DecLoopState 1 2 Unit),
      s₁.input = s₂.input → s₁.hidden = s₂.hidden → s₁.loss = s₂.loss →
      s₁.printLoss = s₂.printLoss → s₁.nTotals = s₂.nTotals →
      ((decoderLoopFrom c1wDec c1wEll trainIgnoreIndex true c1wA s₁ n).input =
          (decoderLoopFrom c1wDec c1wEll trainIgnoreIndex true c1wA s₂ n).input ∧
        (decoderLoopFrom c1wDec c1wEll trainIgnoreIndex true c1wA s₁ n).hidden =
          (decoderLoopFrom c1wDec c1wEll trainIgnoreIndex true c1wA s₂ n).hidden ∧
        (decoderLoopFrom c1wDec c1wEll trainIgnoreIndex true c1wA s₁ n).loss =
          (decoderLoopFrom c1wDec c1wEll trainIgnoreIndex true c1wA s₂ n).loss ∧
        (decoderLoopFrom c1wDec c1wEll trainIgnoreIndex true c1wA s₁ n).printLoss =
          (decoderLoopFrom c1wDec c1wEll trainIgnoreIndex true c1wA s₂ n).printLoss ∧
        (decoderLoopFrom c1wDec c1wEll trainIgnoreIndex true c1wA s₁ n).nTotals =
          (decoderLoopFrom c1wDec c1wEll trainIgnoreIndex true c1wA s₂ n).nTotals)) :=
  c1_teacher_forcing 1 2 1 Unit c1wDec c1wEll c1wA 1 () 0

/-- C10: in both `train` and `evaluate`, an answer position whose gold
token is `PAD_TOKEN` contributes nothing to the per-step cross-entropy
loss (`train` uses `ignore_index=PAD_TOKEN`, `evaluate` uses
`ignore_index=0`, and `PAD_TOKEN = 0`): the step loss is the mean over the
non-PAD positions only and does not depend on the logits at PAD positions;
and the reported per-batch loss is the `nTotal`-weighted sum of the step
losses divided by the count of non-PAD gold tokens. -/
theorem c10_pad_ignored (B C T : Nat) [NeZero C] (Hid : Type)
    (decStep : (Fin B → Fin C) → Hid → (Fin B → Fin C → ℚ) × Hid)
    (ell : (Fin C → ℚ) → Fin C → ℚ)
    (a : Fin B → Fin T → Fin C) (sosTok : Fin C) (h0 : Hid) :
    (trainIgnoreIndex = PAD_TOKEN ∧ evaluateIgnoreIndex = 0 ∧ PAD_TOKEN = 0) ∧
    (∀ (logits : Fin B → Fin C → ℚ) (target : Fin B → Fin C),
      crossEntropyMean ell trainIgnoreIndex logits target =
        (∑ b in univ.filter (fun b : Fin B => (target b : ℕ) ≠ PAD_TOKEN),
          ell (logits b) (target b)) /
          ((univ.filter fun b : Fin B => (target b : ℕ) ≠ PAD_TOKEN).card : ℚ)) ∧
    (∀ (logits logits' : Fin B → Fin C → ℚ) (target : Fin B → Fin C),
      (∀ b, (target b : ℕ) ≠ PAD_TOKEN → logits b = logits' b) →
      crossEntropyMean ell trainIgnoreIndex logits target =
        crossEntropyMean ell trainIgnoreIndex logits' target) ∧
    (∀ (logits : Fin B → Fin C → ℚ) (target : Fin B → Fin C),
      crossEntropyMean ell evaluateIgnoreIndex logits target =
        (∑ b in univ.filter (fun b : Fin B => (target b : ℕ) ≠ PAD_TOKEN),
          ell (logits b) (target b)) /
          ((univ.filter fun b : Fin B => (target b : ℕ) ≠ PAD_TOKEN).card : ℚ)) ∧
    (∀ (logits logits' : Fin B → Fin C → ℚ) (target : Fin B → Fin C),
      (∀ b, (target b : ℕ) ≠ PAD_TOKEN → logits b = logits' b) →
      crossEntropyMean ell evaluateIgnoreIndex logits target =
        crossEntropyMean ell evaluateIgnoreIndex logits' target) ∧
    (reportedBatchLoss (trainStateAt decStep ell a sosTok h0 T) =
      (∑ t, stepLossAt decStep ell trainIgnoreIndex true a (decInit sosTok h0) t *
        countNonPad a t) / (∑ t, countNonPad a t)) ∧
    (reportedBatchLoss (evaluateStateAt decStep ell a sosTok h0 T) =
      (∑ t, stepLossAt decStep ell evaluateIgnoreIndex false a (decInit sosTok h0) t *
        countNonPad a t) / (∑ t, countNonPad a t)) := by
  have htake : ((List.finRange T).take T) = List.finRange T :=
    List.take_of_length_le (by simp)
  refine ⟨⟨rfl, rfl, rfl⟩,
    fun logits target => crossEntropyMean_filter_form ell PAD_TOKEN logits target,
    fun logits logits' target hsame =>
      crossEntropyMean_congr_nonignored ell PAD_TOKEN logits logits' target hsame,
    fun logits target => crossEntropyMean_filter_form ell PAD_TOKEN logits target,
    fun logits logits' target hsame =>
      crossEntropyMean_congr_nonignored ell PAD_TOKEN logits logits' target hsame,
    ?_, ?_⟩
  · obtain ⟨hp, hn⟩ := decoderLoopFrom_accum decStep ell trainIgnoreIndex true a
      (decInit sosTok h0) T le_rfl
    unfold reportedBatchLoss trainStateAt
    rw [hp, hn, htake, Fin.sum_univ_def, Fin.sum_univ_def]
    simp [decInit]
  · obtain ⟨hp, hn⟩ := decoderLoopFrom_accum decStep ell evaluateIgnoreIndex false a
      (decInit sosTok h0) T le_rfl
    unfold reportedBatchLoss evaluateStateAt
    rw [hp, hn, htake, Fin.sum_univ_def, Fin.sum_univ_def]
    simp [decInit]

/-- Witness for C10: with an all-PAD target, logits that differ only at
PAD positions give the same step loss; and the reported per-batch loss of
a concrete one-step train loop equals the weighted-sum quotient. -/
theorem c10_pad_ignored_witness :
    crossEntropyMean c10wEll trainIgnoreIndex c10wLogits c10wTargetPad =
      crossEntropyMean c10wEll trainIgnoreIndex c10wLogitsB c10wTargetPad ∧
    reportedBatchLoss (trainStateAt c10wDec c10wEll c10wA 1 () 1) =
      (∑ t, stepLossAt c10wDec c10wEll trainIgnoreIndex true c10wA (decInit 1 ()) t *
        countNonPad c10wA t) / (∑ t, countNonPad c10wA t) :=
  ⟨(c10_pad_ignored 1 2 1 Unit c10wDec c10wEll c10wA 1 ()).2.2.1 c10wLogits c10wLogitsB
      c10wTargetPad (fun _ hb => absurd rfl hb),
   (c10_pad_ignored 1 2 1 Unit c10wDec c10wEll c10wA 1 ()).2.2.2.2.2.1⟩
